import Mathlib

/-!
Verification of the streaming download pipeline of the YouTube-MP3-Downloader
backend (index.js).  We shallowly embed the data model and the control flow of
the download route, the metadata fetcher and the per-session event handlers,
and prove the specified properties about them.

Conventions of the embedding:
* JS strings are modelled by Lean `String` (a list of Unicode scalar values).
* JSON numbers are modelled by `ℚ`; `Math.floor` is `Int.floor`.
* The external JSON parser (JSON.parse, a runtime builtin that is not code of
  this repository) is modelled by its outcome: an `Except String Meta` value,
  where `Except.error msg` models a thrown SyntaxError with message `msg`.
* Child processes are modelled by an `alive` flag plus a counter of
  termination signals actually delivered to the OS process; sending a signal
  to an exited process delivers nothing (ESRCH), which is why `killProc` on a
  dead process is the identity.  The try/catch wrappers around every kill in
  the source make the operation total, which the model reflects by `killProc`
  being a total function.
* The HTTP response sink follows Node semantics: writes to a destroyed or
  already ended response deliver no bytes to the client, and end on a closed
  response is a no-op.
-/

namespace YTMp3

/-! ### Metadata as read by the download route -/

/-- Fields of the parsed yt-dlp JSON that the download handler reads:
meta.title and meta.duration.  `none` models an absent or null field. -/
structure Meta where
  title : Option String
  duration : Option ℚ
deriving DecidableEq, Repr

/-- JS expression t || d for a string t: the fallback d is used when t is
absent, null or the empty string (all falsy). -/
def jsStringOr (t : Option String) (d : String) : String :=
  match t with
  | none => d
  | some s => if s.isEmpty then d else s

/-- JS expression meta.duration || 0: an absent duration yields 0, and a
present duration 0 is also 0, so Option.getD captures both. -/
def jsDuration (d : Option ℚ) : ℚ :=
  d.getD 0

/-- Source line: const duration = Math.floor(meta.duration || 0). -/
def flooredDuration (m : Meta) : ℤ :=
  ⌊jsDuration m.duration⌋

/-! ### Filename sanitization -/

/-- Character class of the JS regex \w (ASCII word characters). -/
def isWordChar (c : Char) : Bool :=
  c.isAlphanum || c == '_'

/-- Character class of the JS regex \s: space, tab, line terminators, and the
Unicode whitespace code points JS includes (NBSP, Ogham space mark, the
U+2000..U+200A range, line and paragraph separators, narrow NBSP, medium
mathematical space, ideographic space, BOM). -/
def isJsSpace (c : Char) : Bool :=
  c == ' ' || c == '\t' || c == '\n' || c.val == 11 || c.val == 12 ||
  c == '\r' || c.val == 0xa0 || c.val == 0x1680 ||
  (0x2000 ≤ c.val && c.val ≤ 0x200a) ||
  c.val == 0x2028 || c.val == 0x2029 || c.val == 0x202f ||
  c.val == 0x205f || c.val == 0x3000 || c.val == 0xfeff

/-- Characters kept by .replace(/[^\w\s.-]/gi, ''): everything outside the
class [\w\s.-] is deleted, so a character survives iff it is a word
character, whitespace, a dot or a hyphen. -/
def keepChar (c : Char) : Bool :=
  isWordChar c || isJsSpace c || c == '.' || c == '-'

/-- Source line: const safeTitle = (meta.title || 'audio')
.replace(/[^\w\s.-]/gi, '').substring(0, 60).  The fallback applies before
sanitization; substring(0, 60) keeps the first 60 characters. -/
def safeTitle (title : Option String) : String :=
  String.mk (((jsStringOr title ("audio")).data.filter keepChar).take 60)

/-- Source line: const filename = safeTitle + '.mp3'.  This is the derived
filename placed (percent-encoded) into the Content-Disposition header. -/
def mkFilename (title : Option String) : String :=
  safeTitle title ++ ".mp3"

/-- Allow-list named by the spec: [A-Za-z0-9 ._-]. -/
def inSpecAllow (c : Char) : Bool :=
  c.isAlphanum || c == ' ' || c == '.' || c == '_' || c == '-'

/-! ### Metadata fetcher (ytDlpMetadata) -/

/-- Error taxonomy of the metadata fetcher, read off the reject sites of
ytDlpMetadata: rejection of the wrapper promise, the spawn error event
(yt-dlp not found on PATH), a non-zero exit code with the stderr tail, and a
JSON parse failure (SyntaxError carried by msg). -/
inductive MetaError where
  | wrapperFailed (msg : String)
  | spawnFailed
  | exitNonZero (code : ℤ) (stderrTail : String)
  | parseFailed (msg : String)
deriving DecidableEq, Repr

/-- Outcome of the external yt-dlp invocation as seen by ytDlpMetadata.  For
the wrapper path the outer Except is the promise (rejection message or
resolved output) and the inner Except is the result of JSON.parse when the
output was a string (an already structured output is Except.ok).  For the
spawn path, exited carries the exit code, the buffered stderr text and the
result of JSON.parse on the buffered stdout. -/
inductive FetchInput where
  | wrapper (result : Except String (Except String Meta))
  | spawnError
  | exited (code : ℤ) (stderrText : String) (parsed : Except String Meta)
deriving Repr

/-- JS err.trim().split('\n').slice(-5).join('\n'): the last five lines of
the trimmed stderr text. -/
def lastFiveLines (s : String) : String :=
  String.intercalate "\n" (((s.trim.splitOn "\n").reverse.take 5).reverse)

/-- Shallow embedding of ytDlpMetadata: wrapper path resolves or rejects;
spawn path rejects on the error event, rejects with the stderr tail on a
non-zero exit code, and otherwise resolves or rejects with the outcome of
JSON.parse on the buffered stdout. -/
def ytDlpMetadata : FetchInput → Except MetaError Meta
  | .wrapper (.error msg) => .error (.wrapperFailed msg)
  | .wrapper (.ok (.error msg)) => .error (.parseFailed msg)
  | .wrapper (.ok (.ok m)) => .ok m
  | .spawnError => .error .spawnFailed
  | .exited code stderrText parsed =>
    if code ≠ 0 then .error (.exitNonZero code (lastFiveLines stderrText))
    else
      match parsed with
      | .ok m => .ok m
      | .error msg => .error (.parseFailed msg)

/-- JS String(err) for the errors ytDlpMetadata can reject with: Error
objects stringify as Error: followed by their message (the spawn and exit
messages are built by the source), and the parser SyntaxError carries its
runtime-supplied text. -/
def errString : MetaError → String
  | .wrapperFailed msg => msg
  | .spawnFailed => "Error: yt-dlp not found on PATH"
  | .exitNonZero code tail => "Error: yt-dlp exited " ++ toString code ++ ": " ++ tail
  | .parseFailed msg => msg

/-! ### JSON error bodies -/

/-- Shape of a serialized JSON error body.  A field holding none is absent
from the serialized object (JSON.stringify drops undefined values). -/
structure JsonErrorBody where
  error : String
  details : Option String := none
  message : Option String := none
deriving DecidableEq, Repr

/-- Every res.json error site of index.js, with the free data each carries. -/
inductive ErrorSite where
  | searchMissingQuery
  | searchFailed (d : String)
  | videoInfoFailed (d : String)
  | videoTooLong
  | conversionFailed (d : String)
  | downloadFailed (d : String)
  | boundaryHandler (devMode : Bool) (errText : String)
deriving DecidableEq, Repr

/-- The body each error site serializes, copied from the res.json literals of
the source.  The video-info and download sites slice their detail to 500
characters; the generic boundary handler puts its detail under the key
message, and only in development mode. -/
def errorBody : ErrorSite → JsonErrorBody
  | .searchMissingQuery => { error := "Query parameter is required" }
  | .searchFailed d => { error := "Search failed", details := some d }
  | .videoInfoFailed d =>
      { error := "Failed to get video info", details := some (d.take 500) }
  | .videoTooLong => { error := "Video too long. Maximum 1 hour allowed." }
  | .conversionFailed d => { error := "Conversion failed", details := some d }
  | .downloadFailed d =>
      { error := "Download failed", details := some (d.take 500) }
  | .boundaryHandler devMode errText =>
      { error := "Internal server error"
        message := if devMode then some errText else none }

/-- Keys present in the serialized body, in serialization order. -/
def bodyKeys (b : JsonErrorBody) : List String :=
  ["error"] ++ (if b.details.isSome then ["details"] else []) ++
    (if b.message.isSome then ["message"] else [])

/-- Whether a site is the generic boundary handler running in development
mode, the only site whose body uses the key message. -/
def isDevBoundary : ErrorSite → Bool
  | .boundaryHandler devMode _ => devMode
  | _ => false

/-! ### Child processes and the download session -/

/-- An OS child process: whether it is still running, and how many
termination signals have actually been delivered to it. -/
structure Proc where
  alive : Bool
  signals : Nat
deriving DecidableEq, Repr

/-- Sending a kill to a process: a live process receives the signal and
exits; a process that has already exited receives nothing (the OS reports
ESRCH), so the call is a no-op.  The try/catch around every kill call in the
source means no exception escapes, hence a total function. -/
def killProc (p : Proc) : Proc :=
  if p.alive then ⟨false, p.signals + 1⟩ else p

/-- Live state of one streaming download session after the handler reached
the streaming phase: the yt-dlp child, the ffmpeg child, whether response
headers went out, whether the client side of the response is closed
(destroyed connection), whether the server ended the response, the audio
bytes delivered to the client, and any JSON error response written. -/
structure Session where
  yt : Proc
  ffChild : Proc
  headersSent : Bool
  resClosed : Bool
  resEnded : Bool
  bytesWritten : Nat
  jsonResponse : Option (Nat × JsonErrorBody)
deriving DecidableEq, Repr

/-- Node semantics of res.end(): ending an already destroyed response has no
observable effect; otherwise the response is marked ended.  The source wraps
the call in try/catch, so it is total. -/
def resEnd (s : Session) : Session :=
  if s.resClosed then s else { s with resEnded := true }

/-- Session state right after the handler set and flushed the response
headers and spawned both children (the streaming phase entry state). -/
def initSession : Session :=
  { yt := ⟨true, 0⟩
    ffChild := ⟨true, 0⟩
    headersSent := true
    resClosed := false
    resEnded := false
    bytesWritten := 0
    jsonResponse := none }

/-- The fluent-ffmpeg error handler of the source: kill the upstream yt-dlp
process (try/catch), then either write a 500 JSON body when headers were not
yet sent, or just end the response. -/
def onFfError (s : Session) (errText : String) : Session :=
  let s1 := { s with yt := killProc s.yt }
  if s1.headersSent then resEnd s1
  else
    { s1 with
        headersSent := true
        resEnded := true
        jsonResponse := some (500, errorBody (ErrorSite.conversionFailed errText)) }

/-- The req close handler of the source.  The event means the request side of
the connection closed, so the sink stops accepting bytes.  Under the guard
req.aborted or res.finished the handler SIGKILLs ytProc.  The second kill
targets ffmpegProc, which is the value of ff.pipe(res, end true); the
fluent-ffmpeg pipe recipe returns the stream it was given, here the HTTP
response, and an HTTP response has no kill method, so the conjunct
ffmpegProc.kill is undefined, the expression short-circuits, and the ffmpeg
child receives no signal. -/
def onReqClose (s : Session) (aborted finished : Bool) : Session :=
  let s1 := { s with resClosed := true }
  if aborted || finished then { s1 with yt := killProc s1.yt } else s1

/-- Observable events that can reach a streaming session: an ffmpeg stdout
chunk of n bytes piped toward the response, natural end of the ffmpeg
output (pipe with end true then ends the response), an ffmpeg error, the
req close event with the aborted and finished flags, and a natural exit of
the yt-dlp child (its close listener only logs). -/
inductive Ev where
  | chunk (n : Nat)
  | ffEnd
  | ffError (errText : String)
  | reqClose (aborted finished : Bool)
  | ytExit
deriving Repr

/-- One event step of a streaming session.  A chunk reaches the client only
while the response is neither destroyed nor ended (Node delivers no bytes to
a closed sink); the remaining events invoke the handlers above. -/
def step (s : Session) : Ev → Session
  | .chunk n =>
      if s.resClosed || s.resEnded then s
      else { s with bytesWritten := s.bytesWritten + n }
  | .ffEnd => resEnd s
  | .ffError errText => onFfError s errText
  | .reqClose aborted finished => onReqClose s aborted finished
  | .ytExit => { s with yt := { s.yt with alive := false } }

/-- A session consuming a list of events in order. -/
def runTrace (s : Session) (evs : List Ev) : Session :=
  evs.foldl step s

/-! ### The download route handler -/

/-- Observable outcome of one request to /api/download/:id, up to the point
where streaming begins: an immediate JSON response (status and body) or a
started streaming session, plus whether each child process was spawned and
the derived filename. -/
structure DlOutcome where
  status : Option Nat
  body : Option JsonErrorBody
  spawnedYt : Bool
  spawnedFf : Bool
  filename : Option String
  session : Option Session
deriving DecidableEq, Repr

/-- Shallow embedding of the download route, as a function of the settled
metadata fetch.  A rejected fetch lands in the catch block: ytProc is still
null there, so no kill happens and no process was spawned, and headers are
not yet sent, so a 500 JSON body goes out with String(err).slice(0, 500) as
detail.  A resolved fetch is floored and checked against the 3600 second
ceiling; beyond it the handler returns 400 before spawning anything.
Otherwise it derives the filename, sends headers, spawns yt-dlp, builds the
ffmpeg pipe and starts streaming. -/
def downloadHandler (fetched : Except MetaError Meta) : DlOutcome :=
  match fetched with
  | .error e =>
      { status := some 500
        body := some (errorBody (ErrorSite.downloadFailed (errString e)))
        spawnedYt := false
        spawnedFf := false
        filename := none
        session := none }
  | .ok m =>
      if 3600 < flooredDuration m then
        { status := some 400
          body := some (errorBody ErrorSite.videoTooLong)
          spawnedYt := false
          spawnedFf := false
          filename := none
          session := none }
      else
        { status := none
          body := none
          spawnedYt := true
          spawnedFf := true
          filename := some (mkFilename m.title)
          session := some initSession }

/-! ### Helper lemmas -/

/-- Characters kept by the sanitizer are in the spec allow-list or are
whitespace. -/
theorem keepChar_sub_allow (c : Char) (h : keepChar c = true) :
    (inSpecAllow c || isJsSpace c) = true := by
  simp only [keepChar, isWordChar, Bool.or_eq_true, beq_iff_eq] at h
  simp only [inSpecAllow, Bool.or_eq_true, beq_iff_eq]
  tauto

/-! ### Claim theorems -/

/-- Claim C1, counterexample: the fetched metadata can report a fractional
duration, and the handler floors it before comparing with 3600.  For the
duration 7201/2 = 3600.5, which exceeds 3600 seconds, the request is not
rejected with 400; instead both subprocesses are spawned and streaming
begins. -/
theorem too_long_fractional_gap :
    (3600 : ℚ) < mkRat 7201 2 ∧
    (downloadHandler (Except.ok { title := some ("t"), duration := some (mkRat 7201 2) })).status ≠
      some 400 ∧
    (downloadHandler (Except.ok { title := some ("t"), duration := some (mkRat 7201 2) })).spawnedYt =
      true ∧
    (downloadHandler (Except.ok { title := some ("t"), duration := some (mkRat 7201 2) })).spawnedFf =
      true := by
  refine ⟨by decide, by decide, by decide, by decide⟩

/-- Claim C1 (amended): for every download request whose fetched metadata
reports a duration with floor exceeding 3600 (in particular every integer
duration greater than 3600), the handler responds 400 with the video-too-long
body, spawns neither subprocess, and starts no streaming session, so no
audio bytes are written. -/
theorem too_long_rejected (m : Meta) (h : 3600 < flooredDuration m) :
    (downloadHandler (Except.ok m)).status = some 400 ∧
    (downloadHandler (Except.ok m)).body = some (errorBody ErrorSite.videoTooLong) ∧
    (downloadHandler (Except.ok m)).spawnedYt = false ∧
    (downloadHandler (Except.ok m)).spawnedFf = false ∧
    (downloadHandler (Except.ok m)).session = none := by
  simp [downloadHandler, if_pos h]

/-- Claim C1, witness of the amended theorem at the integer duration 7200. -/
theorem too_long_rejected_witness :
    3600 < flooredDuration { title := some ("t"), duration := some (7200 : ℚ) } ∧
    (downloadHandler
        (Except.ok ({ title := some ("t"), duration := some (7200 : ℚ) } : Meta))).status =
      some 400 ∧
    (downloadHandler
        (Except.ok ({ title := some ("t"), duration := some (7200 : ℚ) } : Meta))).spawnedYt =
      false :=
  ⟨by decide, (too_long_rejected _ (by decide)).1, (too_long_rejected _ (by decide)).2.2.1⟩

/-- Claim C9: a missing or zero duration is treated as 0, so such a request
is never rejected as too long, and any 400 rejection requires the metadata to
carry an actual numeric duration greater than 3600. -/
theorem falsy_duration_not_rejected :
    (∀ m : Meta, m.duration = none ∨ m.duration = some 0 →
      flooredDuration m = 0 ∧
      (downloadHandler (Except.ok m)).status = none ∧
      (downloadHandler (Except.ok m)).spawnedYt = true) ∧
    (∀ m : Meta, (downloadHandler (Except.ok m)).status = some 400 →
      ∃ d : ℚ, m.duration = some d ∧ 3600 < d) := by
  constructor
  · intro m h
    have h0 : flooredDuration m = 0 := by
      rcases h with h | h <;> simp [flooredDuration, jsDuration, h]
    refine ⟨h0, ?_, ?_⟩ <;> simp [downloadHandler, h0]
  · intro m h
    by_cases hlt : 3600 < flooredDuration m
    · cases hd : m.duration with
      | none =>
          exfalso
          rw [flooredDuration, jsDuration, hd] at hlt
          simp at hlt
      | some d =>
          refine ⟨d, rfl, ?_⟩
          rw [flooredDuration, jsDuration, hd] at hlt
          have hfl : (3600 : ℚ) < (⌊(Option.getD (some d) 0 : ℚ)⌋ : ℚ) := by
            exact_mod_cast hlt
          simpa using lt_of_lt_of_le hfl (Int.floor_le _)
    · exfalso
      simp [downloadHandler, hlt] at h

/-- Claim C9, witness: a metadata record without a duration streams, and the
rejected record with duration 7200 indeed carries a numeric duration above
3600. -/
theorem falsy_duration_witness :
    (flooredDuration { title := some ("t"), duration := none } = 0 ∧
      (downloadHandler (Except.ok ({ title := some ("t"), duration := none } : Meta))).status =
        none ∧
      (downloadHandler (Except.ok ({ title := some ("t"), duration := none } : Meta))).spawnedYt =
        true) ∧
    (∃ d : ℚ, ({ title := some ("t"), duration := some (7200 : ℚ) } : Meta).duration = some d ∧
      3600 < d) :=
  ⟨falsy_duration_not_rejected.1 _ (Or.inl rfl), falsy_duration_not_rejected.2 _ (by decide)⟩

/-- Claim C5, counterexample: the title a-tab-b contains a character (the
tab) outside the allow-list [A-Za-z0-9 ._-], yet the sanitizer keeps the tab
because the source regex keeps every \s character, so the derived base still
contains a character outside that allow-list. -/
theorem sanitize_keeps_tab :
    ("a\tb").data.any (fun c => !(inSpecAllow c)) = true ∧
    safeTitle (some ("a\tb")) = "a\tb" ∧
    (safeTitle (some ("a\tb"))).data.any (fun c => !(inSpecAllow c)) = true := by
  refine ⟨by decide, by decide, by decide⟩

/-- Claim C5 (amended): for every title, the derived filename base contains
only characters from [A-Za-z0-9 ._-] or other whitespace characters (the
code keeps word characters, all whitespace, dot and hyphen), and the base is
at most 60 characters long. -/
theorem sanitized_allowlist (t : Option String) :
    (safeTitle t).data.all (fun c => inSpecAllow c || isJsSpace c) = true ∧
    (safeTitle t).length ≤ 60 := by
  constructor
  · apply List.all_eq_true.mpr
    intro c hc
    have hc1 : c ∈ (jsStringOr t ("audio")).data.filter keepChar :=
      List.mem_of_mem_take hc
    exact keepChar_sub_allow c (List.of_mem_filter hc1)
  · have h : (safeTitle t).length =
        (((jsStringOr t ("audio")).data.filter keepChar).take 60).length := rfl
    rw [h]
    exact List.length_take_le 60 _

/-- Claim C10: a falsy title falls back to audio before sanitization, giving
the filename audio.mp3, while a nonempty title whose characters are all
outside the kept class sanitizes to an empty base, giving the bare filename
.mp3. -/
theorem filename_fallback :
    (∀ t : Option String, t = none ∨ t = some ("") → mkFilename t = "audio.mp3") ∧
    (∀ s : String, s.isEmpty = false → s.data.all (fun c => !(keepChar c)) = true →
      mkFilename (some s) = ".mp3") := by
  constructor
  · rintro t (rfl | rfl) <;> decide
  · intro s hne hall
    have h1 : jsStringOr (some s) ("audio") = s := by simp [jsStringOr, hne]
    have h2 : s.data.filter keepChar = [] := by
      apply List.filter_eq_nil_iff.mpr
      intro c hc
      have := List.all_eq_true.mp hall c hc
      simpa using this
    simp only [mkFilename, safeTitle, h1, h2]
    decide

/-- Claim C10, witness: an absent title and the all-disallowed title of three
question marks. -/
theorem filename_fallback_witness :
    mkFilename none = "audio.mp3" ∧ mkFilename (some ("???")) = ".mp3" :=
  ⟨filename_fallback.1 none (Or.inl rfl), filename_fallback.2 ("???") rfl (by decide)⟩

/-- Claim C6: when the extraction program exits 0 but its output does not
parse as JSON, the fetch fails with the parse error, on the wrapper path as
well; and a download request whose metadata fetch failed lands in the catch
block, spawning neither subprocess and answering 500, so in particular a
parse failure spawns no streaming download subprocess. -/
theorem malformed_output_parse_error :
    (∀ stderrText msg : String,
      ytDlpMetadata (FetchInput.exited 0 stderrText (Except.error msg)) =
        Except.error (MetaError.parseFailed msg)) ∧
    (∀ msg : String,
      ytDlpMetadata (FetchInput.wrapper (Except.ok (Except.error msg))) =
        Except.error (MetaError.parseFailed msg)) ∧
    (∀ e : MetaError,
      (downloadHandler (Except.error e)).spawnedYt = false ∧
      (downloadHandler (Except.error e)).spawnedFf = false ∧
      (downloadHandler (Except.error e)).session = none ∧
      (downloadHandler (Except.error e)).status = some 500 ∧
      (downloadHandler (Except.error e)).body =
        some (errorBody (ErrorSite.downloadFailed (errString e)))) ∧
    (∀ stderrText msg : String,
      (downloadHandler
          (ytDlpMetadata (FetchInput.exited 0 stderrText (Except.error msg)))).spawnedYt =
        false) := by
  refine ⟨fun a b => by simp [ytDlpMetadata], fun msg => rfl,
    fun e => ⟨rfl, rfl, rfl, rfl, rfl⟩, fun a b => by simp [ytDlpMetadata, downloadHandler]⟩

/-- Claim C8, counterexample: the catch-all boundary handler in development
mode serializes its detail under the key message, not details, so its body
has a key outside the claimed shape with an error field and an optional
details field. -/
theorem boundary_handler_message_field :
    bodyKeys (errorBody (ErrorSite.boundaryHandler true ("boom"))) = ["error", "message"] ∧
    (errorBody (ErrorSite.boundaryHandler true ("boom"))).message = some ("boom") ∧
    ¬ ("message" ∈ (["error", "details"] : List String)) := by
  refine ⟨by decide, by decide, by decide⟩

/-- Claim C8 (amended): every JSON error body has an error field, and every
other key is details, except that the catch-all boundary handler in
development mode carries its detail under the key message; outside
development mode its body is just the error field. -/
theorem error_body_shape (site : ErrorSite) :
    "error" ∈ bodyKeys (errorBody site) ∧
    ∀ k ∈ bodyKeys (errorBody site),
      k = "error" ∨ k = "details" ∨ (k = "message" ∧ isDevBoundary site = true) := by
  cases site with
  | searchMissingQuery => exact ⟨by decide, by decide⟩
  | videoTooLong => exact ⟨by decide, by decide⟩
  | searchFailed d =>
      refine ⟨by simp [errorBody, bodyKeys], ?_⟩
      intro k hk
      simp [errorBody, bodyKeys] at hk
      rcases hk with rfl | rfl
      · exact Or.inl rfl
      · exact Or.inr (Or.inl rfl)
  | videoInfoFailed d =>
      refine ⟨by simp [errorBody, bodyKeys], ?_⟩
      intro k hk
      simp [errorBody, bodyKeys] at hk
      rcases hk with rfl | rfl
      · exact Or.inl rfl
      · exact Or.inr (Or.inl rfl)
  | conversionFailed d =>
      refine ⟨by simp [errorBody, bodyKeys], ?_⟩
      intro k hk
      simp [errorBody, bodyKeys] at hk
      rcases hk with rfl | rfl
      · exact Or.inl rfl
      · exact Or.inr (Or.inl rfl)
  | downloadFailed d =>
      refine ⟨by simp [errorBody, bodyKeys], ?_⟩
      intro k hk
      simp [errorBody, bodyKeys] at hk
      rcases hk with rfl | rfl
      · exact Or.inl rfl
      · exact Or.inr (Or.inl rfl)
  | boundaryHandler dev e =>
      cases dev with
      | false => exact ⟨by simp [errorBody, bodyKeys], by simp [errorBody, bodyKeys]⟩
      | true =>
          refine ⟨by simp [errorBody, bodyKeys], ?_⟩
          intro k hk
          simp [errorBody, bodyKeys] at hk
          rcases hk with rfl | rfl
          · exact Or.inl rfl
          · exact Or.inr (Or.inr ⟨rfl, rfl⟩)

/-- Claim C8, witness of the amended theorem at the development-mode
boundary handler. -/
theorem error_body_shape_witness :
    "error" ∈ bodyKeys (errorBody (ErrorSite.boundaryHandler true ("x"))) ∧
    ∀ k ∈ bodyKeys (errorBody (ErrorSite.boundaryHandler true ("x"))),
      k = "error" ∨ k = "details" ∨
        (k = "message" ∧ isDevBoundary (ErrorSite.boundaryHandler true ("x")) = true) :=
  error_body_shape (ErrorSite.boundaryHandler true ("x"))

/-- Claim C3: on a transcoder error the handler kills the upstream yt-dlp
process (a live process receives exactly one signal and exits), and resolves
the response by headers: not yet sent means a 500 JSON conversion-failed
body is written and the response ends; already sent means the response is
merely ended, with the JSON response and byte count unchanged. -/
theorem transcode_error_resolution (s : Session) (e : String) :
    (onFfError s e).yt.alive = false ∧
    (s.yt.alive = true → (onFfError s e).yt.signals = s.yt.signals + 1) ∧
    (s.headersSent = false →
      (onFfError s e).jsonResponse = some (500, errorBody (ErrorSite.conversionFailed e)) ∧
      (onFfError s e).resEnded = true ∧
      (onFfError s e).headersSent = true) ∧
    (s.headersSent = true →
      (onFfError s e).jsonResponse = s.jsonResponse ∧
      (onFfError s e).bytesWritten = s.bytesWritten) := by
  obtain ⟨⟨ya, ys⟩, ffc, hs, rc, re, bw, jr⟩ := s
  cases hs <;> cases ya <;> cases rc <;>
    simp [onFfError, killProc, resEnd]

/-- Claim C3, witness: a transcoder error in the streaming state (headers
sent) and one in a state before headers went out. -/
theorem transcode_error_witness :
    (onFfError initSession ("boom")).yt.alive = false ∧
    (onFfError initSession ("boom")).yt.signals = initSession.yt.signals + 1 ∧
    (onFfError initSession ("boom")).jsonResponse = initSession.jsonResponse ∧
    (onFfError { initSession with headersSent := false } ("boom")).jsonResponse =
      some (500, errorBody (ErrorSite.conversionFailed ("boom"))) :=
  ⟨(transcode_error_resolution initSession ("boom")).1,
    (transcode_error_resolution initSession ("boom")).2.1 rfl,
    ((transcode_error_resolution initSession ("boom")).2.2.2 rfl).1,
    ((transcode_error_resolution { initSession with headersSent := false } ("boom")).2.2.1
      rfl).1⟩

/-- Claim C4: termination is idempotent.  Killing an already killed process
is a no-op, a process that has exited receives no signal, a second
disconnect cleanup is the identity, a disconnect cleanup after an error
cleanup changes neither the processes nor any response observable, and an
error cleanup after a disconnect cleanup (headers are always sent in the
streaming phase) is the identity, so at most one terminal transition takes
effect; totality of these functions reflects the try/catch around every kill
in the source, so no uncaught error is possible. -/
theorem termination_idempotent :
    (∀ p : Proc, killProc (killProc p) = killProc p) ∧
    (∀ p : Proc, p.alive = false → killProc p = p) ∧
    (∀ s : Session, ∀ a f : Bool,
      onReqClose (onReqClose s true false) a f = onReqClose s true false) ∧
    (∀ s : Session, ∀ e : String, ∀ a f : Bool,
      (onReqClose (onFfError s e) a f).yt = (onFfError s e).yt ∧
      (onReqClose (onFfError s e) a f).ffChild = (onFfError s e).ffChild ∧
      (onReqClose (onFfError s e) a f).bytesWritten = (onFfError s e).bytesWritten ∧
      (onReqClose (onFfError s e) a f).jsonResponse = (onFfError s e).jsonResponse ∧
      (onReqClose (onFfError s e) a f).resEnded = (onFfError s e).resEnded) ∧
    (∀ s : Session, ∀ e : String, s.headersSent = true →
      onFfError (onReqClose s true false) e = onReqClose s true false) := by
  refine ⟨?_, ?_, ?_, ?_, ?_⟩
  · intro p
    obtain ⟨pa, ps⟩ := p
    cases pa <;> simp [killProc]
  · intro p h
    simp [killProc, h]
  · intro s a f
    obtain ⟨⟨ya, ys⟩, ffc, hs, rc, re, bw, jr⟩ := s
    cases a <;> cases f <;> cases ya <;> simp [onReqClose, killProc]
  · intro s e a f
    obtain ⟨⟨ya, ys⟩, ffc, hs, rc, re, bw, jr⟩ := s
    cases a <;> cases f <;> cases ya <;> cases hs <;> cases rc <;>
      simp [onReqClose, onFfError, killProc, resEnd]
  · intro s e h
    obtain ⟨⟨ya, ys⟩, ffc, hs, rc, re, bw, jr⟩ := s
    cases h
    cases ya <;> cases rc <;> simp [onReqClose, onFfError, killProc, resEnd]

/-- Claim C4, witness: concrete second terminations after a first one. -/
theorem termination_idempotent_witness :
    killProc (killProc (Proc.mk true 0)) = killProc (Proc.mk true 0) ∧
    killProc (Proc.mk false 1) = Proc.mk false 1 ∧
    onReqClose (onReqClose initSession true false) true true =
      onReqClose initSession true false ∧
    (onReqClose (onFfError initSession ("x")) true false).yt =
      (onFfError initSession ("x")).yt ∧
    onFfError (onReqClose initSession true false) ("x") =
      onReqClose initSession true false :=
  ⟨termination_idempotent.1 _,
    termination_idempotent.2.1 _ rfl,
    termination_idempotent.2.2.1 initSession true true,
    (termination_idempotent.2.2.2.1 initSession ("x") true false).1,
    termination_idempotent.2.2.2.2 initSession ("x") rfl⟩

/-- Claim C2, evaluation at the failing input: in the streaming state, a
client disconnect (close with the aborted flag) SIGKILLs the yt-dlp process
(one signal, then dead), but the ffmpeg child receives no signal and keeps
running, because ffmpegProc is the response stream returned by ff.pipe and
has no kill method; a chunk arriving afterwards adds no bytes to the closed
sink. -/
theorem disconnect_leaves_transcoder_unsignaled :
    (onReqClose initSession true false).yt.signals = 1 ∧
    (onReqClose initSession true false).yt.alive = false ∧
    (onReqClose initSession true false).ffChild.signals = 0 ∧
    (onReqClose initSession true false).ffChild.alive = true ∧
    (step (onReqClose initSession true false) (Ev.chunk 7)).bytesWritten =
      (onReqClose initSession true false).bytesWritten := by
  refine ⟨by decide, by decide, by decide, by decide, by decide⟩

/-- Claim C7: on the happy path (a trace of transcoder output chunks followed
by its natural end, with the response never closed early and not yet ended),
every produced byte is delivered: the final byte count written to the
response equals the initial count plus the sum of the chunk sizes, and the
response finishes. -/
theorem happy_path_byte_conservation (s : Session) (chunks : List Nat)
    (hc : s.resClosed = false) (he : s.resEnded = false) :
    (runTrace s (chunks.map Ev.chunk ++ [Ev.ffEnd])).bytesWritten =
      s.bytesWritten + chunks.sum ∧
    (runTrace s (chunks.map Ev.chunk ++ [Ev.ffEnd])).resEnded = true := by
  induction chunks generalizing s with
  | nil => simp [runTrace, step, resEnd, hc, he]
  | cons n rest ih =>
      have hstep : step s (Ev.chunk n) = { s with bytesWritten := s.bytesWritten + n } := by
        simp [step, hc, he]
      have hrec := ih { s with bytesWritten := s.bytesWritten + n } hc he
      constructor
      · show (runTrace (step s (Ev.chunk n)) (rest.map Ev.chunk ++ [Ev.ffEnd])).bytesWritten = _
        rw [hstep, hrec.1]
        simp [Nat.add_assoc]
      · show (runTrace (step s (Ev.chunk n)) (rest.map Ev.chunk ++ [Ev.ffEnd])).resEnded = true
        rw [hstep]
        exact hrec.2

/-- Claim C7, witness: the fresh streaming session consuming two chunks of 3
and 5 bytes delivers exactly 8 bytes and finishes. -/
theorem happy_path_witness :
    initSession.resClosed = false ∧ initSession.resEnded = false ∧
    (runTrace initSession ([3, 5].map Ev.chunk ++ [Ev.ffEnd])).bytesWritten =
      initSession.bytesWritten + [3, 5].sum ∧
    (runTrace initSession ([3, 5].map Ev.chunk ++ [Ev.ffEnd])).resEnded = true :=
  ⟨rfl, rfl, (happy_path_byte_conservation initSession [3, 5] rfl rfl).1,
    (happy_path_byte_conservation initSession [3, 5] rfl rfl).2⟩

end YTMp3
